import Mathlib

/-!
Verification of the content-pipeline core of the `ai-knowledge-agent`
repository: the reflexion loop (`product/analyst_core.py`), the book-search
fallback chain (`src/curator.py`), the candidate scorer
(`curator.py` `validation_node`), the JSON-recovery layers around the LLM
collaborators, the review-agent quality gates (`studio/review_agent.py`)
and the manager's circuit breaker (`studio/manager.py`).

Python strings are modelled as `List Char` where character-level operations
(slicing, stripping, substring search) matter, and as `String` elsewhere.
LLM calls, HTTP calls and `json.loads` are opaque collaborators from the
components' perspective and are passed in as function arguments
(`Except` for calls that may raise, `Option` for parsers that may fail).
-/

namespace AIKA

/-- Python `needle in hay` prefix step: does `hay` start with `needle`? -/
def isPrefixOfL : List Char → List Char → Bool
  | [], _ => true
  | _ :: _, [] => false
  | a :: as, b :: bs => a == b && isPrefixOfL as bs

/-- Python substring test `needle in hay` on character lists. -/
def containsSub (needle : List Char) : List Char → Bool
  | [] => needle.isEmpty
  | c :: rest => isPrefixOfL needle (c :: rest) || containsSub needle rest

/-- Python `str.strip()`: drop whitespace from both ends. -/
def pyStrip (l : List Char) : List Char :=
  ((l.dropWhile Char.isWhitespace).reverse.dropWhile Char.isWhitespace).reverse

/-- Helper for Python `str.split()` (split on whitespace, dropping empties). -/
def wordsAux : List Char → List Char → List (List Char)
  | [], acc => if acc.isEmpty then [] else [acc.reverse]
  | c :: rest, acc =>
    if c.isWhitespace then
      if acc.isEmpty then wordsAux rest [] else acc.reverse :: wordsAux rest []
    else wordsAux rest (c :: acc)

/-- Python `s.lower().split()` (ASCII lowering, as used on the English
topic/title strings in `curator.py`). -/
def pyLowerWords (s : String) : List (List Char) :=
  wordsAux (s.data.map Char.toLower) []

/-- Python `len(set(a) & set(b)) > 0` over word lists. -/
def hasCommonWord (a b : List (List Char)) : Bool :=
  a.any fun w => b.contains w

def lbrace : Char := Char.ofNat 123

def rbrace : Char := Char.ofNat 125

/-- `re.search(r'\x7b.*\x7d', content, re.DOTALL)`: the segment from the
first opening brace to the last closing brace after it, if any. -/
def extractBraced (l : List Char) : Option (List Char) :=
  let t := l.dropWhile fun c => !(c == lbrace)
  let u := (t.reverse.dropWhile fun c => !(c == rbrace)).reverse
  if u.isEmpty then none else some u

/-- Python slice `l[a:-b]` for `a + b ≤ len(l)` (empty otherwise). -/
def pySlice (l : List Char) (a b : Nat) : List Char :=
  (l.drop a).take (l.length - a - b)

/-! ## Reflexion loop (`product/analyst_core.py`)

The LangGraph state and the `draft -> critique -> revise -> critique -> ...`
loop.  The LLM is opaque: `critique` and `revise` stand for the response
content of `llm.invoke` in `critique_node` and `revise_node`, as functions
of the state fields those nodes read. -/

/-- `AnalysisState` from `product/analyst_core.py` (the `book_type` routing
field is irrelevant to the loop and omitted). -/
structure AnalysisState where
  original_text : String
  draft_analysis : String
  critique_feedback : String
  revision_count : Nat
deriving DecidableEq, Repr

/-- `MAX_RETRIES = 3` from `product/analyst_core.py`. -/
def MAX_RETRIES : Nat := 3

/-- `CRITIC_PROMPT` of `product/analyst_core.py` (the `SystemMessage` of
`critique_node`). -/
def CRITIC_PROMPT : String :=
  "\nYou are a meticulous editor reviewing a podcast script. The script should follow a clear thematic tree structure: Central Thesis -> Core Ideas -> Supporting Evidence.\nEnsure the following:\n1.  **Structural Integrity**: Does the script contain a 'Central Thesis', at least one 'Core Idea', and 'Supporting Evidence' for each idea?\n2.  **Clarity and Conciseness**: Is the thesis clear? Are the core ideas distinct? Is the evidence relevant?\n3.  **Accuracy**: Does the evidence accurately reflect the provided text?\n\nIf the script is well-structured and accurate, respond with \"LGTM\". Otherwise, provide specific, actionable feedback for revision.\n"

/-- The `HumanMessage` content built by `critique_node`
(`f"待審查文檔：\n{state['draft_analysis']}"`; identical in
`analyst_core.py` and `product/analyst_core.py`). -/
def critiqueMessage (draft_analysis : String) : String :=
  "待審查文檔：\n" ++ draft_analysis

/-- The full message list `critique_node` hands to `llm.invoke`. -/
def critiqueMessages (s : AnalysisState) : List String :=
  [CRITIC_PROMPT, critiqueMessage s.draft_analysis]

/-- `critique_node`: stores the critique response in `critique_feedback`. -/
def critStep (critique : AnalysisState → String) (s : AnalysisState) :
    AnalysisState :=
  { s with critique_feedback := critique s }

/-- `revise_node`: stores the revision response in `draft_analysis` and
increments `revision_count`. -/
def revStep (revise : AnalysisState → String) (s : AnalysisState) :
    AnalysisState :=
  { s with draft_analysis := revise s, revision_count := s.revision_count + 1 }

/-- `"LGTM" in feedback` from `should_continue`. -/
def hasLGTM (feedback : String) : Bool :=
  containsSub "LGTM".data feedback.data

/-- The `critique -> should_continue -> (END | revise -> critique ...)` loop
of the compiled graph, starting at a `critique` step.  Returns the final
state together with the number of critique calls and of revise calls. -/
def loopFrom (critique revise : AnalysisState → String) (s : AnalysisState) :
    AnalysisState × Nat × Nat :=
  if hasLGTM (critStep critique s).critique_feedback then (critStep critique s, 1, 0)
  else if h : MAX_RETRIES ≤ (critStep critique s).revision_count then
    (critStep critique s, 1, 0)
  else
    let out := loopFrom critique revise (revStep revise (critStep critique s))
    (out.1, out.2.1 + 1, out.2.2 + 1)
termination_by MAX_RETRIES - s.revision_count
decreasing_by
  simp_all only [critStep, revStep]
  omega

/-- The state produced by `draft_node`: a fresh draft and
`revision_count = 1`. -/
def afterDraft (original_text draft : String) : AnalysisState :=
  ⟨original_text, draft, "", 1⟩

/-- The whole reflexion run after routing: draft once, then loop. -/
def runReflexion (draftFn : String → String)
    (critique revise : AnalysisState → String) (original_text : String) :
    AnalysisState × Nat × Nat :=
  loopFrom critique revise (afterDraft original_text (draftFn original_text))

/-! ## Fallback chain (`src/curator.py`, class `Curator`)

`Curator.search` tries `_search_google_books` and, only when that call
raises, falls back to `_fallback_to_tavily`.  Each adapter call is opaque
network I/O: it is modelled by its outcome, an `Except` that is either the
returned list or the raised error. -/

/-- `Curator.search` from `src/curator.py` (lines 85-94): `try` the primary
adapter; on any exception run the fallback and return its outcome as-is
(a fallback exception propagates). -/
def curatorSearch {α : Type} (googleBooks tavily : Except String (List α)) :
    Except String (List α) :=
  match googleBooks with
  | .ok books => .ok books
  | .error _ => tavily

/-- The fallback-chain contract in the words of spec §4.1, for comparison
with `curatorSearch`: iterate adapters in order, treat an error as failure,
accept only a non-empty result, raise an exhaustion error naming the query
otherwise. -/
def specSelect {α : Type} (query : String) :
    List (Except String (List α)) → Except String (List α)
  | [] => .error ("All book sources failed for query: " ++ query)
  | s :: rest =>
    match s with
    | .error _ => specSelect query rest
    | .ok [] => specSelect query rest
    | .ok books => .ok books

/-! ## Exhaustion error (`product/curator.py`, reconstructed)

`tests/test_curator.py` imports `Curator`, `BookSource` and
`AllSourcesFailedError` from `product.curator`, but that module is not in
the source tree; only its tests are. -/

/-- Modelled from the spec: `product/curator.py` (the `Curator` whose
`select_books` iterates `BookSource` adapters and raises
`AllSourcesFailedError`) is absent from the source tree; this follows
spec §4.1 — iterate adapters in fixed order, treat a raised error as that
adapter's failure, accept only a non-empty sequence, and on exhaustion fail
with an `AllSourcesFailedError` that names the query.  The message text is
the one asserted by `test_curator_raises_error_when_all_sources_fail`. -/
def allSourcesFailedMessage (query : String) : String :=
  "All book sources failed for query: " ++ query

/-- Modelled from the spec: `Curator.select_books` of the missing
`product/curator.py`, per spec §4.1 (see `allSourcesFailedMessage`).
An adapter outcome is `.error` when `adapter.search(query)` raised and
`.ok` with its result list otherwise; the `.error` return models the
raised `AllSourcesFailedError`, propagated to the caller. -/
def select_books {α : Type} (query : String) :
    List (Except String (List α)) → Except String (List α)
  | [] => .error (allSourcesFailedMessage query)
  | s :: rest =>
    match s with
    | .error _ => select_books query rest
    | .ok [] => select_books query rest
    | .ok books => .ok books

/-- Does an adapter outcome count as a failure (raised, or empty result)? -/
def sourceFailed {α : Type} : Except String (List α) → Bool
  | .error _ => true
  | .ok l => l.isEmpty

/-! ## Candidate scorer (`curator.py`, `validation_node` lines 153-208)

The initial scoring pass: quality filter, Hacker-News-signal clamp and
normalisation, weighted sum, relevance multiplier, and the stable
descending sort.  The raw signals (`rating` from Google Books, `hn_score`
from `get_hn_sentiment(book["title"])`) arrive with the candidate.
Python's `list.sort(key=..., reverse=True)` is a stable descending sort,
modelled by `List.insertionSort` with the non-strict "greater or equal
score" relation (which is stable for ties). -/

/-- A raw candidate entering `validation_node`, carrying the signals the
scorer reads. -/
structure BookIn where
  title : String
  description : String
  rating : ℚ
  hn_score : ℚ
deriving DecidableEq, Repr

/-- A candidate with its computed `final_score` attached. -/
structure ScoredBook where
  book : BookIn
  final_score : ℚ
deriving DecidableEq, Repr

/-- The relevance multiplier of `validation_node`: 1.2 on a topic/title
word overlap, else 0.8 on a topic/description overlap, else 0.1 (the float
constants written as exact rationals). -/
def relevanceScore (topic title description : String) : ℚ :=
  if hasCommonWord (pyLowerWords topic) (pyLowerWords title) then 12 / 10
  else if hasCommonWord (pyLowerWords topic) (pyLowerWords description) then
    8 / 10
  else 1 / 10

/-- `final_score = (min(hn_score, 500) / 100 * 0.7 + g_rating * 0.3) *
relevance` from `validation_node` (float weights 0.7 and 0.3 as exact
rationals). -/
def finalScore (topic : String) (b : BookIn) : ℚ :=
  (min b.hn_score 500 / 100 * (7 / 10) + b.rating * (3 / 10)) *
    relevanceScore topic b.title b.description

/-- The per-candidate step of the scoring loop: skip books with
`0 < rating < 3.0`, score the rest, and keep them when
`final_score > 0 or g_rating >= 0`. -/
def scoreCandidate (topic : String) (b : BookIn) : Option ScoredBook :=
  if 0 < b.rating ∧ b.rating < 3 then none
  else
    let score := finalScore topic b
    if 0 < score ∨ 0 ≤ b.rating then some ⟨b, score⟩ else none

/-- The descending-by-`final_score` relation used for the sort. -/
def scoreGE (x y : ScoredBook) : Prop := y.final_score ≤ x.final_score

instance : DecidableRel scoreGE := fun x y =>
  inferInstanceAs (Decidable (y.final_score ≤ x.final_score))

instance : IsTotal ScoredBook scoreGE :=
  ⟨fun a b => (le_total b.final_score a.final_score).imp id id⟩

instance : IsTrans ScoredBook scoreGE :=
  ⟨fun _ _ _ hab hbc => le_trans hbc hab⟩

/-- The initial scoring-and-ranking pass of `validation_node`
(lines 159-208 of `curator.py`): filter, score, stable descending sort.
The later top-5 sentiment adjustment (lines 210-239) is a separate,
subsequent stage. -/
def validationRankInitial (topic : String) (candidates : List BookIn) :
    List ScoredBook :=
  List.insertionSort scoreGE (candidates.filterMap (scoreCandidate topic))

/-! ## JSON recovery around the LLM collaborators

Three call sites parse structured data out of free-form LLM text:
`analyze_sentiment` (`curator.py`), `verify_source_reliability`
(`src/curator.py`) and `ReviewAgent.review_code_llm`
(`studio/review_agent.py`).  `llm.invoke` is modelled by its outcome
(`Except`: response content, or a raised exception) and `json.loads` by an
abstract parser (`Option`: decoded value, or a `JSONDecodeError`). -/

/-- The decoded `{"score": ..., "summary": ...}` of `analyze_sentiment`. -/
structure SentimentResult where
  score : ℚ
  summary : String
deriving DecidableEq, Repr

/-- The decoded `{"score": ..., "reason": ...}` of
`verify_source_reliability` (missing keys already defaulted, mirroring the
`result.get(...)` lines). -/
structure ScoreResult where
  score : ℚ
  reason : String
deriving DecidableEq, Repr

/-- The decoded `{'approved': ..., 'comments': ...}` of
`review_code_llm`. -/
structure ReviewResult where
  approved : Bool
  comments : String
deriving DecidableEq, Repr

/-- The code-fence cleanup in `analyze_sentiment`: `content[7:-3]` after a
"```json" marker, `content[3:-3]` after a bare "```" marker. -/
def sentimentClean (content : List Char) : List Char :=
  if isPrefixOfL "```json".data content then pySlice content 7 3
  else if isPrefixOfL "```".data content then pySlice content 3 3
  else content

/-- `analyze_sentiment` from `curator.py` (lines 102-136): empty comments
short-circuit; any exception from the LLM call or from `json.loads` is
caught and turned into the `{"score": 0.0, "summary": "Analysis failed."}`
default; otherwise the stripped, fence-cleaned content is parsed. -/
def analyze_sentiment (parse : List Char → Option SentimentResult)
    (llmOut : Except String (List Char)) (comments_text : List Char) :
    SentimentResult :=
  if comments_text.isEmpty then ⟨0, "No comments available."⟩
  else
    match llmOut with
    | .error _ => ⟨0, "Analysis failed."⟩
    | .ok raw =>
      match parse (sentimentClean (pyStrip raw)) with
      | some r => r
      | none => ⟨0, "Analysis failed."⟩

/-- The JSON-object extraction of `verify_source_reliability`: the regex
match if any, the raw content otherwise. -/
def vsrExtract (content : List Char) : List Char :=
  match extractBraced content with
  | some js => js
  | none => content

/-- The response-handling core of `verify_source_reliability` from
`src/curator.py` (lines 150-180): a raised LLM call falls to the outer
handler's default; a `json.loads` failure on the regex-extracted object
falls to the inner default; both defaults carry score 5.0. -/
def verify_source_reliability (parse : List Char → Option ScoreResult)
    (llmOut : Except String (List Char)) : ScoreResult :=
  match llmOut with
  | .error _ => ⟨5, "Verification failed, using default score."⟩
  | .ok raw =>
    match parse (vsrExtract (pyStrip raw)) with
    | some r => r
    | none => ⟨5, "JSON parsing failed, using default score."⟩

/-- The code-fence cleanup in `review_code_llm`: drop a leading "```json"
marker, drop a trailing "```" marker, then strip. -/
def reviewClean (content : List Char) : List Char :=
  let c1 := if isPrefixOfL "```json".data content then content.drop 7 else content
  let c2 :=
    if isPrefixOfL "```".data.reverse c1.reverse then c1.take (c1.length - 3)
    else c1
  pyStrip c2

/-- `ReviewAgent.review_code_llm` from `studio/review_agent.py`
(lines 47-118): no configured LLM, an empty diff, a raised LLM call, and an
unparseable response all yield `approved = True`; otherwise the cleaned
response is parsed. -/
def review_code_llm (parse : List Char → Option ReviewResult)
    (hasLLM : Bool) (diff : List Char)
    (llmOut : Except String (List Char)) : ReviewResult :=
  if hasLLM = false then ⟨true, "Skipped AI review (LLM not configured)."⟩
  else if (pyStrip diff).isEmpty then ⟨true, "No code changes detected."⟩
  else
    match llmOut with
    | .error e => ⟨true, "AI Review failed due to internal error: " ++ e⟩
    | .ok raw =>
      match parse (reviewClean (pyStrip raw)) with
      | some r => r
      | none => ⟨true, "AI Review failed due to internal error: JSONDecodeError"⟩

/-! ## Quality-gate decision (`studio/review_agent.py`, `process_open_prs`)

The per-PR decision block (lines 159-208): three gate results
(compliance, AI review, tests) decide between merging, skipping a draft
with a warning, and posting one consolidated failure comment. -/

/-- The externally visible actions of the decision block for one PR. -/
inductive PRAction where
  | merge : PRAction
  | warnDraftSkip : PRAction
  | postComment : PRAction
deriving DecidableEq, Repr

/-- `ReviewAgent.check_copilot_compliance`: the PR body (if any) must
contain the Copilot consultation marker. -/
def check_copilot_compliance (body : Option String) : Bool :=
  match body with
  | none => false
  | some b => containsSub "## 🤖 Copilot Consultation Log".data b.data

/-- The decision block of `process_open_prs` (lines 159-208): merge once
iff every gate passed and the PR is not a draft; a passing draft is only
warned about; any failed gate leads to a single consolidated comment. -/
def prDecision (compliance_ok ai_approved tests_passed draft : Bool) :
    List PRAction :=
  if compliance_ok && ai_approved && tests_passed then
    if draft then [.warnDraftSkip] else [.merge]
  else [.postComment]

/-- One PR evaluation: the gates as computed by `process_open_prs`
(`check_copilot_compliance(pr)`, `review_result['approved']`,
`pytest` return code 0), fed into the decision block. -/
def processOnePR (body : Option String) (draft : Bool)
    (review : ReviewResult) (testReturncode : Int) : List PRAction :=
  prDecision (check_copilot_compliance body) review.approved
    (testReturncode == 0) draft

/-! ## Circuit breaker (`studio/manager.py`, `ManagerAgent`)

`optimization_attempts` is a dict keyed by component, modelled as a total
map defaulting to 0 (`dict.get(target, 0)`); `trigger_recovery` returns the
updated map together with whether the optimizer subprocess was invoked. -/

/-- `MAX_OPTIMIZATION_RETRIES = 3` from `ManagerAgent.__init__`. -/
def MAX_OPTIMIZATION_RETRIES : Nat := 3

/-- The hard-coded recovery target of `trigger_recovery`. -/
def targetComponent : String := "product/analyst_core.py"

/-- `ManagerAgent.trigger_recovery` (lines 71-95): on a "quality" failure,
refuse when the breaker has tripped (`count >= MAX_OPTIMIZATION_RETRIES`),
otherwise run the optimizer and increment the counter; a "logic" failure
(or anything else) never touches the counter. -/
def trigger_recovery (attempts : String → Nat) (failure_type : String) :
    (String → Nat) × Bool :=
  if failure_type = "quality" then
    let current := attempts targetComponent
    if MAX_OPTIMIZATION_RETRIES ≤ current then (attempts, false)
    else ((fun t => if t = targetComponent then current + 1 else attempts t), true)
  else (attempts, false)

/-- A sequence of recovery calls, threading the counter map. -/
def runRecoveries (fts : List String) (attempts : String → Nat) :
    String → Nat :=
  fts.foldl (fun a ft => (trigger_recovery a ft).1) attempts

/-- A Markdown-fenced JSON payload, the known LLM failure mode the
cleanup layers recover from. -/
def fenceJson (body : List Char) : List Char :=
  "```json".data ++ body ++ "```".data

/-! ## Shared lemmas -/

theorem isPrefixOfL_append_self (l t : List Char) :
    isPrefixOfL l (l ++ t) = true := by
  induction l with
  | nil => rfl
  | cons a as ih => simp [isPrefixOfL, ih]

theorem isPrefixOfL_self (l : List Char) : isPrefixOfL l l = true := by
  simpa using isPrefixOfL_append_self l []

theorem containsSub_append_self (pre needle : List Char) :
    containsSub needle (pre ++ needle) = true := by
  induction pre with
  | nil =>
    cases needle with
    | nil => rfl
    | cons c cs => simp [containsSub, isPrefixOfL_self]
  | cons a pre ih => simp [containsSub, ih]

theorem dropWhile_append_of_all {p : Char → Bool} (pre l : List Char)
    (h : ∀ c ∈ pre, p c = true) :
    (pre ++ l).dropWhile p = l.dropWhile p := by
  induction pre with
  | nil => rfl
  | cons a as ih =>
    have ha : p a = true := h a (by simp)
    simp [List.dropWhile_cons, ha]
    exact ih fun c hc => h c (by simp [hc])

/-! ## Claim theorems -/

set_option maxRecDepth 8192 in
/-- Claim C1 (code bug evidence): at the state used by
`tests/test_hallucination_fix.py`, neither message `critique_node` sends to
the LLM contains the original input text — the critique prompt carries only
the draft, although the repository's own test asserts the original text
must be present. -/
theorem critique_messages_lack_original_text :
    (critiqueMessages
        ⟨"The quick brown fox jumps over the lazy dog.",
         "The system architecture involves a fast fox module.", "", 1⟩).all
      (fun m =>
        !(containsSub "The quick brown fox jumps over the lazy dog.".data
            m.data)) = true := by
  decide

/-- Claim C2 (counterexample): when the primary adapter returns an empty
list and the fallback would return a non-empty one, `Curator.search`
returns the empty list — it does not require a non-empty result as the
claim states — so it differs from the spec §4.1 `select` contract at this
input. -/
theorem curator_search_accepts_empty_counterexample :
    curatorSearch (Except.ok ([] : List Nat)) (Except.ok [1]) =
        Except.ok [] ∧
    specSelect "B2B Sales" [Except.ok ([] : List Nat), Except.ok [1]] =
        Except.ok [1] ∧
    curatorSearch (Except.ok ([] : List Nat)) (Except.ok [1]) ≠
        specSelect "B2B Sales" [Except.ok ([] : List Nat), Except.ok [1]] := by
  refine ⟨rfl, rfl, fun h => ?_⟩
  exact absurd (Except.ok.inj h) (by decide)

/-- Claim C2 (amended): `Curator.search` tries the adapters in declared
order and returns the primary's result whenever the primary returns
without raising — even when that result is empty — invoking the fallback
(whose outcome, result or error, is returned as-is) only when the primary
raises.  The fallback's irrelevance on a primary success states that it is
never invoked then. -/
theorem curator_search_first_errorless_result :
    ∀ (α : Type) (books : List α) (e : String)
      (tavily : Except String (List α)),
      curatorSearch (Except.ok books) tavily = Except.ok books ∧
      curatorSearch (Except.error e) tavily = tavily := by
  intro α books e tavily
  exact ⟨rfl, rfl⟩

theorem select_books_exhaust_aux {α : Type} (query : String)
    (sources : List (Except String (List α)))
    (h : ∀ s ∈ sources, sourceFailed s = true) :
    select_books query sources =
      Except.error (allSourcesFailedMessage query) := by
  induction sources with
  | nil => rfl
  | cons s rest ih =>
    have hrest : ∀ x ∈ rest, sourceFailed x = true := fun x hx =>
      h x (by simp [hx])
    cases s with
    | error e => simpa [select_books] using ih hrest
    | ok l =>
      have hl : l = [] := by simpa [sourceFailed] using h (.ok l) (by simp)
      subst hl
      simpa [select_books] using ih hrest

/-- Claim C3: when every source raises or returns an empty list,
`select_books` fails with the `AllSourcesFailedError` (the `.error`
outcome, which the `Except` model propagates to the caller) whose message
names the query. -/
theorem select_books_raises_on_exhaustion :
    ∀ (α : Type) (query : String)
      (sources : List (Except String (List α))),
      (∀ s ∈ sources, sourceFailed s = true) →
      select_books query sources =
          Except.error (allSourcesFailedMessage query) ∧
      containsSub query.data (allSourcesFailedMessage query).data = true := by
  intro α query sources h
  refine ⟨select_books_exhaust_aux query sources h, ?_⟩
  have hdata : (allSourcesFailedMessage query).data =
      "All book sources failed for query: ".data ++ query.data := by
    simp [allSourcesFailedMessage]
  rw [hdata]
  exact containsSub_append_self _ _

/-- Claim C3 witness: the scenario of
`test_curator_raises_error_when_all_sources_fail` — two raising sources,
query "test query". -/
theorem select_books_raises_on_exhaustion_witness :
    select_books "test query"
        ([Except.error "API is down", Except.error "API is down"] :
          List (Except String (List Nat))) =
      Except.error (allSourcesFailedMessage "test query") ∧
    containsSub "test query".data
        (allSourcesFailedMessage "test query").data = true :=
  select_books_raises_on_exhaustion Nat "test query"
    [Except.error "API is down", Except.error "API is down"] (by decide)

/-- Claim C6: the circuit breaker's counter map never decreases at any
target; once the counter of the (sole, hard-coded) target has reached
`MAX_OPTIMIZATION_RETRIES`, any recovery call returns with the map
untouched and without invoking the optimizer; hence any sequence of
further recovery calls leaves the map unchanged — there is no automatic
reset. -/
theorem circuit_breaker_monotone_and_trips_permanently :
    (∀ (attempts : String → Nat) (ft t : String),
        attempts t ≤ (trigger_recovery attempts ft).1 t) ∧
    (∀ (attempts : String → Nat) (ft : String),
        MAX_OPTIMIZATION_RETRIES ≤ attempts targetComponent →
        trigger_recovery attempts ft = (attempts, false)) ∧
    (∀ (fts : List String) (attempts : String → Nat),
        MAX_OPTIMIZATION_RETRIES ≤ attempts targetComponent →
        runRecoveries fts attempts = attempts) := by
  have htrip : ∀ (attempts : String → Nat) (ft : String),
      MAX_OPTIMIZATION_RETRIES ≤ attempts targetComponent →
      trigger_recovery attempts ft = (attempts, false) := by
    intro attempts ft h
    by_cases hft : ft = "quality"
    · simp [trigger_recovery, hft, h]
    · simp [trigger_recovery, hft]
  refine ⟨?_, htrip, ?_⟩
  · intro attempts ft t
    by_cases hft : ft = "quality"
    · by_cases h : MAX_OPTIMIZATION_RETRIES ≤ attempts targetComponent
      · simp [trigger_recovery, hft, h]
      · by_cases ht : t = targetComponent
        · subst ht
          simp [trigger_recovery, hft, h]
        · simp [trigger_recovery, hft, h, ht]
    · simp [trigger_recovery, hft]
  · intro fts
    induction fts with
    | nil => intro attempts _; rfl
    | cons ft rest ih =>
      intro attempts h
      have hstep := htrip attempts ft h
      calc runRecoveries (ft :: rest) attempts
          = runRecoveries rest (trigger_recovery attempts ft).1 := rfl
        _ = runRecoveries rest attempts := by rw [hstep]
        _ = attempts := ih attempts h

/-- Claim C9: the AI code-review gate fails open — no configured LLM, an
empty diff, a raised LLM invocation, and an unparseable LLM response all
yield `approved = true`, so an AI-review failure alone never blocks a
merge. -/
theorem review_gate_fails_open :
    ∀ (parse : List Char → Option ReviewResult) (diff : List Char)
      (llmOut : Except String (List Char)) (e : String) (raw : List Char),
      (review_code_llm parse false diff llmOut).approved = true ∧
      ((pyStrip diff).isEmpty = true →
        (review_code_llm parse true diff llmOut).approved = true) ∧
      (review_code_llm parse true diff (Except.error e)).approved = true ∧
      (parse (reviewClean (pyStrip raw)) = none →
        (review_code_llm parse true diff (Except.ok raw)).approved = true) := by
  intro parse diff llmOut e raw
  refine ⟨by simp [review_code_llm], fun h => by simp [review_code_llm, h],
    ?_, fun hp => ?_⟩
  · by_cases hd : (pyStrip diff).isEmpty <;> simp [review_code_llm, hd]
  · by_cases hd : (pyStrip diff).isEmpty <;> simp [review_code_llm, hd, hp]

/-- Claim C9 witness: the four fail-open cases at concrete inputs. -/
theorem review_gate_fails_open_witness :
    (review_code_llm (fun _ => none) false "d".data
        (Except.ok "x".data)).approved = true ∧
    (review_code_llm (fun _ => none) true [] (Except.ok "x".data)).approved =
        true ∧
    (review_code_llm (fun _ => none) true "d".data
        (Except.error "boom")).approved = true ∧
    (review_code_llm (fun _ => none) true "d".data
        (Except.ok "not json".data)).approved = true :=
  ⟨(review_gate_fails_open (fun _ => none) "d".data (Except.ok "x".data)
      "boom" "not json".data).1,
   (review_gate_fails_open (fun _ => none) [] (Except.ok "x".data) "boom"
      "not json".data).2.1 (by decide),
   (review_gate_fails_open (fun _ => none) "d".data (Except.ok "x".data)
      "boom" "not json".data).2.2.1,
   (review_gate_fails_open (fun _ => none) "d".data (Except.ok "x".data)
      "boom" "not json".data).2.2.2 rfl⟩

theorem prDecision_merge_facts :
    ∀ c a t d : Bool,
      (prDecision c a t d).count PRAction.merge ≤ 1 ∧
      (0 < (prDecision c a t d).count PRAction.merge →
        c = true ∧ a = true ∧ t = true) ∧
      (d = true → PRAction.merge ∉ prDecision c a t d) ∧
      (d = true → c = true → a = true → t = true →
        prDecision c a t d = [PRAction.warnDraftSkip]) := by
  decide

/-- Claim C4: one PR evaluation invokes the merge action at most once, and
only when the compliance gate, the AI-review gate and the test run all
passed. -/
theorem merge_at_most_once_and_fully_gated :
    ∀ (body : Option String) (draft : Bool) (review : ReviewResult)
      (rc : Int),
      (processOnePR body draft review rc).count PRAction.merge ≤ 1 ∧
      (0 < (processOnePR body draft review rc).count PRAction.merge →
        check_copilot_compliance body = true ∧ review.approved = true ∧
          rc = 0) := by
  intro body draft review rc
  obtain ⟨h1, h2, -, -⟩ :=
    prDecision_merge_facts (check_copilot_compliance body) review.approved
      (rc == 0) draft
  refine ⟨h1, fun h => ?_⟩
  obtain ⟨hc, ha, ht⟩ := h2 h
  exact ⟨hc, ha, eq_of_beq ht⟩

/-- Claim C4 witness: a fully passing, non-draft PR merges exactly once and
all gates are reported as passed. -/
theorem merge_at_most_once_witness :
    (processOnePR (some "## 🤖 Copilot Consultation Log") false ⟨true, ""⟩
        0).count PRAction.merge ≤ 1 ∧
    (check_copilot_compliance (some "## 🤖 Copilot Consultation Log") =
        true ∧ (true : Bool) = true ∧ (0 : Int) = 0) :=
  ⟨(merge_at_most_once_and_fully_gated
      (some "## 🤖 Copilot Consultation Log") false ⟨true, ""⟩ 0).1,
   (merge_at_most_once_and_fully_gated
      (some "## 🤖 Copilot Consultation Log") false ⟨true, ""⟩ 0).2
      (by decide)⟩

/-- Claim C10: a draft PR is never merged — whatever the gate outcomes —
and when every gate passes the decision block only logs the draft warning:
no failure comment is posted and no merge is invoked. -/
theorem draft_pr_never_merged :
    ∀ (body : Option String) (review : ReviewResult) (rc : Int),
      PRAction.merge ∉ processOnePR body true review rc ∧
      (check_copilot_compliance body = true → review.approved = true →
        rc = 0 → processOnePR body true review rc =
          [PRAction.warnDraftSkip]) := by
  intro body review rc
  obtain ⟨-, -, h3, h4⟩ :=
    prDecision_merge_facts (check_copilot_compliance body) review.approved
      (rc == 0) true
  refine ⟨h3 rfl, fun hc ha hrc => ?_⟩
  exact h4 rfl hc ha (by simp [hrc])

/-- Claim C10 witness: a draft PR with every gate passing is only warned
about. -/
theorem draft_pr_never_merged_witness :
    PRAction.merge ∉ processOnePR (some "## 🤖 Copilot Consultation Log")
        true ⟨true, ""⟩ 0 ∧
    processOnePR (some "## 🤖 Copilot Consultation Log") true ⟨true, ""⟩ 0 =
        [PRAction.warnDraftSkip] :=
  ⟨(draft_pr_never_merged (some "## 🤖 Copilot Consultation Log") ⟨true, ""⟩
      0).1,
   (draft_pr_never_merged (some "## 🤖 Copilot Consultation Log") ⟨true, ""⟩
      0).2 (by decide) rfl rfl⟩

theorem pyStrip_fenceJson (body : List Char) :
    pyStrip (fenceJson body) = fenceJson body := by
  unfold pyStrip fenceJson
  rw [show (("```json".data ++ body ++ "```".data).dropWhile
      Char.isWhitespace) = "```json".data ++ body ++ "```".data from rfl]
  rw [List.reverse_append, List.reverse_append]
  rw [show ("```".data.reverse ++ (body.reverse ++ "```json".data.reverse)).dropWhile
        Char.isWhitespace =
      "```".data.reverse ++ (body.reverse ++ "```json".data.reverse) from rfl]
  simp [List.reverse_append]

theorem sentimentClean_fenceJson (body : List Char) :
    sentimentClean (fenceJson body) = body := by
  unfold sentimentClean fenceJson
  rw [List.append_assoc]
  rw [if_pos (isPrefixOfL_append_self "```json".data (body ++ "```".data))]
  unfold pySlice
  rw [show (7 : Nat) = "```json".data.length from rfl, List.drop_left]
  have hlen : ("```json".data ++ (body ++ "```".data)).length -
      "```json".data.length - 3 = body.length := by
    simp [List.length_append]
  rw [hlen]
  exact List.take_left body "```".data

theorem reviewClean_fenceJson (body : List Char) :
    reviewClean (fenceJson body) = pyStrip body := by
  unfold reviewClean fenceJson
  dsimp only
  rw [List.append_assoc]
  rw [if_pos (isPrefixOfL_append_self "```json".data (body ++ "```".data))]
  rw [show (7 : Nat) = "```json".data.length from rfl, List.drop_left]
  rw [List.reverse_append]
  rw [if_pos (isPrefixOfL_append_self "```".data.reverse body.reverse)]
  have hlen : (body ++ "```".data).length - 3 = body.length := by
    simp [List.length_append]
  rw [hlen]
  rw [List.take_left body "```".data]

theorem extractBraced_embedded (pre mid post : List Char)
    (h1 : lbrace ∉ pre) (h2 : rbrace ∉ post) :
    extractBraced (pre ++ lbrace :: (mid ++ rbrace :: post)) =
      some (lbrace :: (mid ++ [rbrace])) := by
  unfold extractBraced
  dsimp only
  rw [dropWhile_append_of_all pre _ (fun c hc => by
    have : (c == lbrace) = false := by
      exact beq_eq_false_iff_ne.mpr fun he => h1 (he ▸ hc)
    simp [this])]
  rw [show ((lbrace :: (mid ++ rbrace :: post)).dropWhile
      fun c => !(c == lbrace)) = lbrace :: (mid ++ rbrace :: post) from by
    simp [List.dropWhile_cons]]
  have hrev : (lbrace :: (mid ++ rbrace :: post)).reverse =
      post.reverse ++ (rbrace :: (mid.reverse ++ [lbrace])) := by
    simp [List.reverse_cons, List.reverse_append]
  rw [hrev]
  rw [dropWhile_append_of_all post.reverse _ (fun c hc => by
    have hmem : c ∈ post := by simpa using hc
    have : (c == rbrace) = false := by
      exact beq_eq_false_iff_ne.mpr fun he => h2 (he ▸ hmem)
    simp [this])]
  rw [show ((rbrace :: (mid.reverse ++ [lbrace])).dropWhile
      fun c => !(c == rbrace)) = rbrace :: (mid.reverse ++ [lbrace]) from by
    simp [List.dropWhile_cons]]
  simp [List.reverse_append]

/-- Claim C7: each LLM-consuming parse site attempts a tolerant recovery
and falls back to a safe default instead of raising.  In order:
`analyze_sentiment` returns its zero-score default whenever the (cleaned)
response fails to parse; it recovers a payload wrapped in a ```json fence;
`verify_source_reliability` returns its 5.0 default on a parse failure and
on a raised LLM call; its regex step extracts a JSON object embedded in
surrounding prose; and `review_code_llm` recovers a fenced payload too.
All three components are total functions of the collaborator outcomes, so
no parse exception can cross their boundary. -/
theorem llm_json_recovery_and_safe_defaults :
    (∀ (parse : List Char → Option SentimentResult) (raw txt : List Char),
        txt.isEmpty = false →
        parse (sentimentClean (pyStrip raw)) = none →
        analyze_sentiment parse (Except.ok raw) txt =
          ⟨0, "Analysis failed."⟩) ∧
    (∀ (parse : List Char → Option SentimentResult) (body txt : List Char)
        (r : SentimentResult), txt.isEmpty = false →
        parse body = some r →
        analyze_sentiment parse (Except.ok (fenceJson body)) txt = r) ∧
    (∀ (parse : List Char → Option ScoreResult) (raw : List Char),
        parse (vsrExtract (pyStrip raw)) = none →
        verify_source_reliability parse (Except.ok raw) =
          ⟨5, "JSON parsing failed, using default score."⟩) ∧
    (∀ (parse : List Char → Option ScoreResult) (e : String),
        verify_source_reliability parse (Except.error e) =
          ⟨5, "Verification failed, using default score."⟩) ∧
    (∀ (pre mid post : List Char), lbrace ∉ pre → rbrace ∉ post →
        extractBraced (pre ++ lbrace :: (mid ++ rbrace :: post)) =
          some (lbrace :: (mid ++ [rbrace]))) ∧
    (∀ (parse : List Char → Option ReviewResult) (diff body : List Char)
        (r : ReviewResult), (pyStrip diff).isEmpty = false →
        pyStrip body = body → parse body = some r →
        review_code_llm parse true diff (Except.ok (fenceJson body)) = r) := by
  refine ⟨?_, ?_, ?_, ?_, extractBraced_embedded, ?_⟩
  · intro parse raw txt htxt hp
    simp [analyze_sentiment, htxt, hp]
  · intro parse body txt r htxt hp
    have hclean : sentimentClean (pyStrip (fenceJson body)) = body := by
      rw [pyStrip_fenceJson, sentimentClean_fenceJson]
    simp [analyze_sentiment, htxt, hclean, hp]
  · intro parse raw hp
    simp [verify_source_reliability, hp]
  · intro parse e
    simp [verify_source_reliability]
  · intro parse diff body r hdiff hbody hp
    have hclean : reviewClean (pyStrip (fenceJson body)) = body := by
      rw [pyStrip_fenceJson, reviewClean_fenceJson, hbody]
    simp [review_code_llm, hdiff, hclean, hp]

/-- Claim C7 witness: concrete parse failures hit the safe defaults, and
concrete fenced or prose-embedded payloads are recovered. -/
theorem llm_json_recovery_witness :
    analyze_sentiment (fun _ => none) (Except.ok "garbage".data) "c".data =
        ⟨0, "Analysis failed."⟩ ∧
    analyze_sentiment
        (fun s => if s = "J".data then some ⟨1, "ok"⟩ else none)
        (Except.ok (fenceJson "J".data)) "c".data = ⟨1, "ok"⟩ ∧
    verify_source_reliability (fun _ => none) (Except.ok "junk".data) =
        ⟨5, "JSON parsing failed, using default score."⟩ ∧
    verify_source_reliability (fun _ => none) (Except.error "500") =
        ⟨5, "Verification failed, using default score."⟩ ∧
    extractBraced ("a".data ++ lbrace :: ("m".data ++ rbrace :: "b".data)) =
        some (lbrace :: ("m".data ++ [rbrace])) ∧
    review_code_llm
        (fun s => if s = "J".data then some ⟨false, "no"⟩ else none) true
        "d".data (Except.ok (fenceJson "J".data)) = ⟨false, "no"⟩ :=
  ⟨llm_json_recovery_and_safe_defaults.1 (fun _ => none) "garbage".data
      "c".data rfl rfl,
   llm_json_recovery_and_safe_defaults.2.1
      (fun s => if s = "J".data then some ⟨1, "ok"⟩ else none) "J".data
      "c".data ⟨1, "ok"⟩ rfl (by rfl),
   llm_json_recovery_and_safe_defaults.2.2.1 (fun _ => none) "junk".data rfl,
   llm_json_recovery_and_safe_defaults.2.2.2.1 (fun _ => none) "500",
   llm_json_recovery_and_safe_defaults.2.2.2.2.1 "a".data "m".data "b".data
      (by decide) (by decide),
   llm_json_recovery_and_safe_defaults.2.2.2.2.2
      (fun s => if s = "J".data then some ⟨false, "no"⟩ else none) "d".data
      "J".data ⟨false, "no"⟩ rfl rfl (by rfl)⟩

theorem relevanceScore_pos (topic title description : String) :
    0 < relevanceScore topic title description := by
  unfold relevanceScore
  split_ifs <;> norm_num

theorem scoreCandidate_capped_eval (hn : ℚ) (h : min hn 500 = 500) :
    scoreCandidate "ai" ⟨"ai guide", "", 4, hn⟩ =
      some ⟨⟨"ai guide", "", 4, hn⟩, 141 / 25⟩ := by
  have hrel : relevanceScore "ai" "ai guide" "" = 12 / 10 := by
    unfold relevanceScore
    rw [if_pos (show hasCommonWord (pyLowerWords "ai")
      (pyLowerWords "ai guide") = true from rfl)]
  have hscore : finalScore "ai" ⟨"ai guide", "", 4, hn⟩ = 141 / 25 := by
    unfold finalScore
    dsimp only
    rw [hrel, h]
    norm_num
  unfold scoreCandidate
  dsimp only
  rw [hscore]
  rw [if_neg (by norm_num), if_pos (Or.inr (by norm_num))]

theorem validationRank_capped_pair :
    validationRankInitial "ai"
        [⟨"ai guide", "", 4, 501⟩, ⟨"ai guide", "", 4, 600⟩] =
      [⟨⟨"ai guide", "", 4, 501⟩, 141 / 25⟩,
       ⟨⟨"ai guide", "", 4, 600⟩, 141 / 25⟩] := by
  have h1 := scoreCandidate_capped_eval 501 (min_eq_right (by norm_num))
  have h2 := scoreCandidate_capped_eval 600 (min_eq_right (by norm_num))
  have hge : scoreGE ⟨⟨"ai guide", "", 4, 501⟩, 141 / 25⟩
      ⟨⟨"ai guide", "", 4, 600⟩, 141 / 25⟩ := le_refl _
  unfold validationRankInitial
  rw [show List.filterMap (scoreCandidate "ai")
      [(⟨"ai guide", "", 4, 501⟩ : BookIn), ⟨"ai guide", "", 4, 600⟩] =
      [⟨⟨"ai guide", "", 4, 501⟩, 141 / 25⟩,
       ⟨⟨"ai guide", "", 4, 600⟩, 141 / 25⟩] by
    simp [List.filterMap_cons, h1, h2]]
  simp only [List.insertionSort, List.orderedInsert]
  rw [if_pos hge]

/-- Claim C8 (counterexample): two candidates identical except in the HN
score (501 vs 600, both positive) tie after the 500-point clamp, and the
stable descending sort keeps the input order — so the higher-signal
candidate (hn 600) ranks below the lower-signal one, contradicting the
claim that it never ranks lower. -/
theorem scorer_rank_counterexample :
    (validationRankInitial "ai"
        [⟨"ai guide", "", 4, 501⟩, ⟨"ai guide", "", 4, 600⟩]).map
      (fun e => e.book.hn_score) = [501, 600] := by
  rw [validationRank_capped_pair]
  rfl

/-- Claim C8 (amended): for two otherwise-identical candidates differing
only in the HN signal, the higher-signal candidate's score is never
smaller; its score is strictly larger whenever the clamped signals differ
(in particular whenever both are below the 500 cap); and the ranking
output is sorted descending by score, so a strictly larger score means a
strictly earlier rank.  Only clamp ties (both signals at or above 500) can
leave the higher-signal candidate later, by stable-sort input order — as
`scorer_rank_counterexample` exhibits. -/
theorem scorer_monotone_and_sort_descending :
    (∀ (topic t d : String) (r u v : ℚ), u ≤ v →
        finalScore topic ⟨t, d, r, u⟩ ≤ finalScore topic ⟨t, d, r, v⟩) ∧
    (∀ (topic t d : String) (r u v : ℚ), min u 500 < min v 500 →
        finalScore topic ⟨t, d, r, u⟩ < finalScore topic ⟨t, d, r, v⟩) ∧
    (∀ (topic : String) (l : List BookIn)
        (i j : Fin (validationRankInitial topic l).length), i < j →
        ((validationRankInitial topic l).get j).final_score ≤
          ((validationRankInitial topic l).get i).final_score) := by
  refine ⟨?_, ?_, ?_⟩
  · intro topic t d r u v hle
    unfold finalScore
    dsimp only
    apply mul_le_mul_of_nonneg_right _ (relevanceScore_pos topic t d).le
    have hm : min u 500 ≤ min v 500 := min_le_min hle le_rfl
    linarith
  · intro topic t d r u v hlt
    unfold finalScore
    dsimp only
    apply mul_lt_mul_of_pos_right _ (relevanceScore_pos topic t d)
    linarith
  · intro topic l i j hij
    have hs : List.Sorted scoreGE (validationRankInitial topic l) :=
      List.sorted_insertionSort scoreGE (l.filterMap (scoreCandidate topic))
    exact hs.rel_get_of_lt hij

/-- Claim C8 (amended) witness: monotone at hn 100 vs 200, strictly below
the clamp; and in the concrete ranked pair the later entry's score does
not exceed the earlier one's. -/
theorem scorer_monotone_witness :
    finalScore "ai" ⟨"ai guide", "", 4, 100⟩ ≤
        finalScore "ai" ⟨"ai guide", "", 4, 200⟩ ∧
    finalScore "ai" ⟨"ai guide", "", 4, 100⟩ <
        finalScore "ai" ⟨"ai guide", "", 4, 200⟩ ∧
    ((validationRankInitial "ai"
        [⟨"ai guide", "", 4, 501⟩, ⟨"ai guide", "", 4, 600⟩]).get
      ⟨1, by rw [validationRank_capped_pair]; decide⟩).final_score ≤
      ((validationRankInitial "ai"
          [⟨"ai guide", "", 4, 501⟩, ⟨"ai guide", "", 4, 600⟩]).get
        ⟨0, by rw [validationRank_capped_pair]; decide⟩).final_score :=
  ⟨scorer_monotone_and_sort_descending.1 "ai" "ai guide" "" 4 100 200
      (by norm_num),
   scorer_monotone_and_sort_descending.2.1 "ai" "ai guide" "" 4 100 200
      (by rw [min_eq_left (by norm_num), min_eq_left (by norm_num)]
          norm_num),
   scorer_monotone_and_sort_descending.2.2 "ai"
      [⟨"ai guide", "", 4, 501⟩, ⟨"ai guide", "", 4, 600⟩] _ _
      (by simp [Fin.lt_iff_val_lt_val])⟩

/-- Claim C5: with `MAX_RETRIES = 3` and a critique that never produces
the "LGTM" sentinel, the loop performs exactly 3 critique calls and 2
revise calls (the counts, and the shape of the final state), terminates
with `revision_count = 3`, and returns the draft produced by the last
revise call (the final critique step leaves `draft_analysis` untouched). -/
theorem reflexion_exhausts_after_three_critiques :
    ∀ (critique revise : AnalysisState → String) (s : AnalysisState),
      s.revision_count = 1 →
      (∀ t, hasLGTM (critique t) = false) →
      loopFrom critique revise s =
        (critStep critique (revStep revise (critStep critique
          (revStep revise (critStep critique s)))), 3, 2) ∧
      (loopFrom critique revise s).1.revision_count = 3 ∧
      (loopFrom critique revise s).1.draft_analysis =
        revise (critStep critique (revStep revise (critStep critique s))) := by
  intro critique revise s hc hn
  have hstep : ∀ u : AnalysisState, ¬ MAX_RETRIES ≤ u.revision_count →
      loopFrom critique revise u =
        ((loopFrom critique revise (revStep revise (critStep critique u))).1,
         (loopFrom critique revise
            (revStep revise (critStep critique u))).2.1 + 1,
         (loopFrom critique revise
            (revStep revise (critStep critique u))).2.2 + 1) := by
    intro u hu
    rw [loopFrom]
    simp [critStep, hn u, hu]
  have hstop : ∀ u : AnalysisState, MAX_RETRIES ≤ u.revision_count →
      loopFrom critique revise u = (critStep critique u, 1, 0) := by
    intro u hu
    rw [loopFrom]
    simp [critStep, hn u, hu]
  have h2 : (revStep revise (critStep critique s)).revision_count = 2 := by
    simp [revStep, critStep, hc]
  have h3 : (revStep revise (critStep critique
      (revStep revise (critStep critique s)))).revision_count = 3 := by
    simp [revStep, critStep, hc]
  have heq : loopFrom critique revise s =
      (critStep critique (revStep revise (critStep critique
        (revStep revise (critStep critique s)))), 3, 2) := by
    rw [hstep s (by rw [hc]; decide), hstep _ (by rw [h2]; decide),
      hstop _ (by rw [h3]; decide)]
  refine ⟨heq, ?_, ?_⟩
  · rw [heq]
    exact h3
  · rw [heq]
    rfl

/-- Claim C5 witness: a concrete never-approving critique and a draft
extender run through exactly three critiques and two revisions. -/
theorem reflexion_exhausts_witness :
    loopFrom (fun _ => "needs work") (fun t => t.draft_analysis ++ "+")
        ⟨"orig", "d0", "", 1⟩ =
      (⟨"orig", "d0++", "needs work", 3⟩, 3, 2) := by
  have hconst : hasLGTM "needs work" = false := by decide
  have h := (reflexion_exhausts_after_three_critiques (fun _ => "needs work")
    (fun t => t.draft_analysis ++ "+") ⟨"orig", "d0", "", 1⟩ rfl
    (fun _ => hconst)).1
  rw [h]
  rfl

/-- Claim C6 witness: a map with the target already at the threshold is
left untouched by a quality recovery and by a whole call sequence, and a
fresh map only grows. -/
theorem circuit_breaker_witness :
    (fun _ => 0 : String → Nat) "x" ≤
        (trigger_recovery (fun _ => 0) "quality").1 "x" ∧
    trigger_recovery (fun _ => 3) "quality" = ((fun _ => 3), false) ∧
    runRecoveries ["quality", "logic", "quality"] (fun _ => 3) =
        (fun _ => 3) :=
  ⟨circuit_breaker_monotone_and_trips_permanently.1 (fun _ => 0) "quality" "x",
   circuit_breaker_monotone_and_trips_permanently.2.1 (fun _ => 3) "quality"
     (by decide),
   circuit_breaker_monotone_and_trips_permanently.2.2
     ["quality", "logic", "quality"] (fun _ => 3) (by decide)⟩

end AIKA
